import Mathlib

/-!
Shallow embedding of `src/platform/slpi/host_link.cc` (CHRE SLPI host link):
the outbound pump `chre_slpi_get_message_to_host`, the inbound dispatcher
`chre_slpi_deliver_message_from_host` with its helper
`handleNanoappMessageFromHost`, the codec half `encodeNanoappMessage`, and
`HostLinkBase::shutdown`.

External collaborators (the FlatBuffers library, the host comms manager, the
logging macros, the QuRT timer) are modeled as explicit parameters or as
fields of an effect trace: each embedded function returns, besides its C
return value, a record of the calls it made (verifier run, routing call,
completion callback count, log lines, sleeps), so that claims about "no
routing call", "exactly one completion", "bounded retries" become plain
equalities over the trace.
-/

namespace chre

/-- Modelled from the spec: the `CHRE_FASTRPC_*` status constants are declared
in `fastrpc.h`, which is not under `src/`; the spec only requires the three
statuses SUCCESS, ERROR and SHUTTING_DOWN to exist and be pairwise distinct,
which an inductive type provides. -/
inductive FastRPCResult where
  | SUCCESS
  | ERROR
  | SHUTTING_DOWN
deriving DecidableEq, Repr

/-- C `INT_MAX` for the 32-bit `int` of the SLPI (Hexagon) target. -/
def INT_MAX : Nat := 2 ^ 31 - 1

/-- The `toHostData` sub-structure of `MessageToHost`
(`chre/core/host_comms_manager.h`): the fields the pump reads. -/
structure ToHostData where
  messageType : Nat
  hostEndpoint : Nat
deriving DecidableEq, Repr

/-- The device-side outbound message (`MessageToHost`): 64-bit app id, payload
byte sequence, and the to-host metadata. Machine widths are irrelevant to the
embedded control flow, so identifiers are plain `Nat`. -/
structure MessageToHost where
  appId : Nat
  message : List Nat
  toHostData : ToHostData
deriving DecidableEq, Repr

/-- The decoded `fbs::NanoappMessage` table: the four accessors the code
reads (`app_id`, `message_type`, `host_endpoint`, `message`). The payload
vector is optional in the FlatBuffers schema; `none` models an absent field
(null `flatbuffers::Vector` pointer). -/
structure NanoappMessage where
  app_id : Nat
  message_type : Nat
  host_endpoint : Nat
  message : Option (List Nat)
deriving DecidableEq, Repr

/-- The value of the `fbs::MessageContainer` union: the discriminant
(`container->message_type()`) together with the union value
(`container->message()`). The `NanoappMessage` case carries an `Option`
because the union pointer can be null even when the discriminant says
`NanoappMessage`; `Other tag` covers every unsupported discriminant. -/
inductive ChreMessage where
  | NanoappMessage (msg : Option NanoappMessage)
  | Other (tag : Nat)
deriving DecidableEq, Repr

/-- The `fbs::MessageContainer` root table. -/
structure MessageContainer where
  msg : ChreMessage
deriving DecidableEq, Repr

/-- Abstraction of a raw inbound byte buffer as the FlatBuffers library sees
it: whether `fbs::VerifyMessageContainerBuffer` accepts it, and what
`fbs::GetMessageContainer` returns on it (null or a root table). The
byte-level layout itself belongs to the external FlatBuffers codegen. -/
structure FBBuffer where
  verifies : Bool
  root : Option MessageContainer
deriving DecidableEq, Repr

/-- `fbs::VerifyMessageContainerBuffer` on the dispatcher's buffer argument.
A null buffer pointer (`none`) dereferences null inside the C++ verifier
(undefined behavior); modeled as verification failure, which only matters
for recording that the verifier ran at all. -/
def bufVerifies : Option FBBuffer → Bool
  | none => false
  | some b => b.verifies

/-- `fbs::GetMessageContainer` on the dispatcher's buffer argument. -/
def bufRoot : Option FBBuffer → Option MessageContainer
  | none => none
  | some b => b.root

/-- `encodeNanoappMessage` (host_link.cc lines 44-59): builds the
`MessageContainer` for an outbound message. The FlatBuffers `Offset` is
initialized to 0 (absent) and `CreateVector` is called only when the payload
is non-empty, so a zero-length payload is omitted from the container. The
serialization of this container to bytes is the external builder. -/
def encodeNanoappMessage (msgToHost : MessageToHost) : MessageContainer :=
  let messageData : Option (List Nat) :=
    if msgToHost.message.length > 0 then some msgToHost.message else none
  { msg := ChreMessage.NanoappMessage (some
      { app_id := msgToHost.appId
        message_type := msgToHost.toHostData.messageType
        host_endpoint := msgToHost.toHostData.hostEndpoint
        message := messageData }) }

/-- Result record of one call to the pump `chre_slpi_get_message_to_host`:
the C return value, the final contents of the host buffer and of the
`*messageLen` output, and how many times
`hostCommsManager.onMessageToHostComplete` was invoked. -/
structure PumpOut where
  result : FastRPCResult
  buffer : List Nat
  messageLen : Nat
  completions : Nat
deriving DecidableEq, Repr

/-- `chre_slpi_get_message_to_host` (host_link.cc lines 71-118) for one call,
with the dequeued queue entry made explicit (`none` is the null sentinel) and
the FlatBufferBuilder serialization abstracted as `toBytes`. `buffer0` and
`messageLen0` are the pre-call contents of the host buffer and of
`*messageLen`; `memcpy(buffer, data, size)` overwrites the first `size`
bytes and leaves the rest of the buffer unchanged. -/
def chre_slpi_get_message_to_host (toBytes : MessageContainer → List Nat)
    (message : Option MessageToHost) (bufferLen : Int)
    (buffer0 : List Nat) (messageLen0 : Nat) : PumpOut :=
  match message with
  | none =>
    -- A null message is used during shutdown so the calling thread can exit
    { result := FastRPCResult.SHUTTING_DOWN, buffer := buffer0,
      messageLen := messageLen0, completions := 0 }
  | some message =>
    let inner : FastRPCResult × List Nat × Nat :=
      if bufferLen ≤ 0 ∨ message.message.length > INT_MAX
          ∨ (message.message.length : Int) > bufferLen then
        -- FARF(FATAL, ...) on the emergency path; no buffer write
        (FastRPCResult.ERROR, buffer0, messageLen0)
      else
        let data := toBytes (encodeNanoappMessage message)
        let size := data.length
        if (size : Int) > bufferLen then
          -- LOGE + CHRE_ASSERT(false); message dropped, no buffer write
          (FastRPCResult.ERROR, buffer0, messageLen0)
        else
          (FastRPCResult.SUCCESS, data ++ buffer0.drop size, size)
    -- onMessageToHostComplete(message) runs after the branch, exactly once
    { result := inner.1, buffer := inner.2.1, messageLen := inner.2.2,
      completions := 1 }

/-- One routing call `sendMessageToNanoappFromHost(appId, hostEndpoint,
messageType, payload, payloadSize)`. `payload = none` stands for the pair
(null pointer, size 0); `payload = some bs` for a pointer to `bs` with size
`bs.length`. -/
structure RouteCall where
  appId : Nat
  hostEndpoint : Nat
  messageType : Nat
  payload : Option (List Nat)
deriving DecidableEq, Repr

/-- The `payloadSize` argument a `RouteCall` carries: 0 for a null payload
pointer, the byte count otherwise. -/
def RouteCall.payloadLen (r : RouteCall) : Nat :=
  match r.payload with
  | none => 0
  | some d => d.length

/-- Effect trace of `handleNanoappMessageFromHost`: whether the
"Dropping empty nanoapp message" error was logged, and the routing call made
(if any). -/
structure HandleTrace where
  dropLogged : Bool
  routed : Option RouteCall
deriving DecidableEq, Repr

/-- `handleNanoappMessageFromHost` (host_link.cc lines 127-151): null message
pointer is logged and dropped; otherwise payload defaults to (null, 0) and is
replaced by the vector data and size when the `message()` field is present,
then the four fields are forwarded to `sendMessageToNanoappFromHost`. -/
def handleNanoappMessageFromHost (msgFromHost : Option NanoappMessage) :
    HandleTrace :=
  match msgFromHost with
  | none =>
    { dropLogged := true, routed := none }
  | some m =>
    let payload : Option (List Nat) :=
      match m.message with
      | none => none
      | some d => some d
    { dropLogged := false
      routed := some
        { appId := m.app_id, hostEndpoint := m.host_endpoint,
          messageType := m.message_type, payload := payload } }

/-- Result record of one call to the dispatcher
`chre_slpi_deliver_message_from_host`: the C return value plus the trace of
external calls (verifier run, discriminant read, routing call, log lines). -/
structure DispatchOut where
  result : FastRPCResult
  verifierInvoked : Bool
  discriminantRead : Bool
  errLogged : Bool
  warnLogged : Bool
  dropLogged : Bool
  routed : Option RouteCall
deriving DecidableEq, Repr

/-- `chre_slpi_deliver_message_from_host` (host_link.cc lines 161-194). The
buffer argument is `none` for a null pointer, otherwise the FlatBuffers view
of the bytes. Faithful to the source, the early-out guard is the conjunction
`message == nullptr && messageLen <= 0`; any call that does not satisfy both
conditions constructs the verifier and runs
`fbs::VerifyMessageContainerBuffer`. -/
def chre_slpi_deliver_message_from_host (message : Option FBBuffer)
    (messageLen : Int) : DispatchOut :=
  -- int result = CHRE_FASTRPC_ERROR;
  if message.isNone ∧ messageLen ≤ 0 then
    -- LOGE("Got null or invalid size (%d) message from host", ...)
    { result := FastRPCResult.ERROR, verifierInvoked := false,
      discriminantRead := false, errLogged := true, warnLogged := false,
      dropLogged := false, routed := none }
  else if ¬(bufVerifies message = true) ∨ bufRoot message = none then
    -- LOGE("Got corrupted or invalid message from host (size %d)", ...)
    { result := FastRPCResult.ERROR, verifierInvoked := true,
      discriminantRead := false, errLogged := true, warnLogged := false,
      dropLogged := false, routed := none }
  else
    match bufRoot message with
    | none =>
      -- unreachable: the previous branch already returned when root is null
      { result := FastRPCResult.ERROR, verifierInvoked := true,
        discriminantRead := false, errLogged := true, warnLogged := false,
        dropLogged := false, routed := none }
    | some container =>
      match container.msg with
      | ChreMessage.NanoappMessage m =>
        let h := handleNanoappMessageFromHost m
        { result := FastRPCResult.SUCCESS, verifierInvoked := true,
          discriminantRead := true, errLogged := false, warnLogged := false,
          dropLogged := h.dropLogged, routed := h.routed }
      | ChreMessage.Other _ =>
        -- LOGW("Got invalid/unexpected CHRE message type ...")
        { result := FastRPCResult.SUCCESS, verifierInvoked := true,
          discriminantRead := true, errLogged := false, warnLogged := true,
          dropLogged := false, routed := none }

/-- `kPollingIntervalUsec` from `HostLinkBase::shutdown` (5000 microseconds,
i.e. 5 ms per sleep). -/
def kPollingIntervalUsec : Nat := 5000

/-- The retry loop shape shared by both stages of `HostLinkBase::shutdown`:
`while (!ok() && --count > 0) qurt_timer_sleep(kPollingIntervalUsec);`.
`ok attempt` is the outcome of the `attempt`-th (0-based) call to the
polled operation (`gOutboundQueue.push(nullptr)` in stage 1,
`gOutboundQueue.empty()` in stage 2). Returns the final counter value, the
number of calls made to `ok`, and the number of sleeps executed. The C++
counter is a signed `int`; it only ever reaches -1 when the initial count is
0, which `shutdown` never does, and the code only tests `count <= 0`, so the
counter is carried as a `Nat` (the -1 exit collapses to 0, same test). -/
def boundedRetry (ok : Nat → Bool) : Nat → Nat → Nat × Nat × Nat
  | attempt, count =>
    if ok attempt then (count, attempt + 1, attempt)
    else
      match count with
      | 0 => (0, attempt + 1, attempt)
      | 1 => (0, attempt + 1, attempt)
      | c + 2 => boundedRetry ok (attempt + 1) (c + 1)

/-- Effect trace of one call to `HostLinkBase::shutdown`: how many sentinel
pushes were attempted and sleeps taken in stage 1, whether the sentinel got
in, whether the stage-1 failure was logged, and the polls/sleeps/timeout-log
of the stage-2 drain wait. -/
structure ShutdownTrace where
  pushAttempts : Nat
  enqueueSleeps : Nat
  sentinelEnqueued : Bool
  enqueueFailLogged : Bool
  drainPolls : Nat
  drainSleeps : Nat
  drainTimeoutLogged : Bool
deriving DecidableEq, Repr

/-- `HostLinkBase::shutdown` (host_link.cc lines 202-236). `push attempt` is
the result of the `attempt`-th `gOutboundQueue.push(nullptr)` and `emptyQ
poll` the result of the `poll`-th `gOutboundQueue.empty()`, both supplied by
the environment (queue + host behavior). Stage 1 retries the sentinel push
with `retryCount = 5`; if the counter is exhausted the failure is logged on
the emergency path and the drain stage is skipped; otherwise stage 2 polls
emptiness with `waitCount = 5` and logs a timeout when that counter is
exhausted. -/
def shutdown (push : Nat → Bool) (emptyQ : Nat → Bool) : ShutdownTrace :=
  let s1 := boundedRetry push 0 5
  if s1.1 = 0 then
    -- FARF(ERROR, "No room in outbound queue for shutdown message ...")
    { pushAttempts := s1.2.1, enqueueSleeps := s1.2.2,
      sentinelEnqueued := false, enqueueFailLogged := true,
      drainPolls := 0, drainSleeps := 0, drainTimeoutLogged := false }
  else
    let s2 := boundedRetry emptyQ 0 5
    { pushAttempts := s1.2.1, enqueueSleeps := s1.2.2,
      sentinelEnqueued := true, enqueueFailLogged := false,
      drainPolls := s2.2.1, drainSleeps := s2.2.2,
      drainTimeoutLogged := s2.1 == 0 }

/-! ## Helper lemmas -/

/-- Both shutdown stages start their retry loop at `count = 5`, so the polled
operation is called at most 5 times and at most 4 sleeps are taken, whatever
the environment answers. -/
theorem boundedRetry_bounds (ok : Nat → Bool) :
    (boundedRetry ok 0 5).2.1 ≤ 5 ∧ (boundedRetry ok 0 5).2.2 ≤ 4 := by
  cases h0 : ok 0 <;> cases h1 : ok 1 <;> cases h2 : ok 2 <;> cases h3 : ok 3 <;>
    cases h4 : ok 4 <;> simp [boundedRetry, h0, h1, h2, h3, h4]

/-! ## Claim theorems -/

/-- C1: the spec claims every call to `chre_slpi_deliver_message_from_host`
with a null buffer or a non-positive length returns an error without invoking
the structural verifier. The code guards with
`message == nullptr && messageLen <= 0`, so a call in which only one of the
two conditions is invalid slips past the guard and runs the verifier: with a
valid (non-null, unverifiable) buffer and `messageLen = 0`, and with a null
buffer and `messageLen = 1`, the verifier is invoked. -/
theorem deliver_guard_conjunction_bug :
    (chre_slpi_deliver_message_from_host
        (some { verifies := false, root := none }) 0).verifierInvoked = true
    ∧ (chre_slpi_deliver_message_from_host none 1).verifierInvoked = true := by
  exact ⟨rfl, rfl⟩

/-- C2: every pump call that dequeues a real message invokes
`onMessageToHostComplete` exactly once, on all branches (the completion runs
after the validate/encode/copy `if` chain); a sentinel dequeue invokes it
zero times. -/
theorem pump_completion_exactly_once
    (toBytes : MessageContainer → List Nat) (m : MessageToHost)
    (bufferLen : Int) (buffer0 : List Nat) (messageLen0 : Nat) :
    (chre_slpi_get_message_to_host toBytes (some m) bufferLen buffer0
        messageLen0).completions = 1
    ∧ (chre_slpi_get_message_to_host toBytes none bufferLen buffer0
        messageLen0).completions = 0 := by
  exact ⟨rfl, rfl⟩

/-- C3: a dispatcher call whose buffer fails structural verification, or
whose top-level container comes back null, returns the error status, never
reads the discriminant, and makes no routing call — for every buffer content
and every length. -/
theorem deliver_fails_closed_on_bad_buffer
    (messageLen : Int) (r : Option MessageContainer) :
    ((chre_slpi_deliver_message_from_host
        (some { verifies := false, root := r }) messageLen).result
          = FastRPCResult.ERROR
      ∧ (chre_slpi_deliver_message_from_host
          (some { verifies := false, root := r }) messageLen).discriminantRead
            = false
      ∧ (chre_slpi_deliver_message_from_host
          (some { verifies := false, root := r }) messageLen).routed = none)
    ∧ ((chre_slpi_deliver_message_from_host
        (some { verifies := true, root := none }) messageLen).result
          = FastRPCResult.ERROR
      ∧ (chre_slpi_deliver_message_from_host
          (some { verifies := true, root := none }) messageLen).discriminantRead
            = false
      ∧ (chre_slpi_deliver_message_from_host
          (some { verifies := true, root := none }) messageLen).routed = none) := by
  refine ⟨⟨?_, ?_, ?_⟩, ⟨?_, ?_, ?_⟩⟩ <;>
    simp [chre_slpi_deliver_message_from_host, bufVerifies, bufRoot]

/-- C4: for every pump call on a real message, either the call succeeds, the
encoded message fits (`size ≤ bufferLen`), the whole encoding is copied into
the buffer (bytes past it untouched) and `*messageLen` is set to the size; or
the call fails with the error status and neither the buffer nor `*messageLen`
is changed — no partial writes, all bounds checks before the copy. -/
theorem pump_buffer_write_all_or_nothing
    (toBytes : MessageContainer → List Nat) (m : MessageToHost)
    (bufferLen : Int) (buffer0 : List Nat) (messageLen0 : Nat) :
    ((chre_slpi_get_message_to_host toBytes (some m) bufferLen buffer0
          messageLen0).result = FastRPCResult.SUCCESS
      ∧ ((toBytes (encodeNanoappMessage m)).length : Int) ≤ bufferLen
      ∧ (chre_slpi_get_message_to_host toBytes (some m) bufferLen buffer0
          messageLen0).buffer
        = toBytes (encodeNanoappMessage m)
            ++ buffer0.drop (toBytes (encodeNanoappMessage m)).length
      ∧ (chre_slpi_get_message_to_host toBytes (some m) bufferLen buffer0
          messageLen0).messageLen = (toBytes (encodeNanoappMessage m)).length)
    ∨ ((chre_slpi_get_message_to_host toBytes (some m) bufferLen buffer0
          messageLen0).result = FastRPCResult.ERROR
      ∧ (chre_slpi_get_message_to_host toBytes (some m) bufferLen buffer0
          messageLen0).buffer = buffer0
      ∧ (chre_slpi_get_message_to_host toBytes (some m) bufferLen buffer0
          messageLen0).messageLen = messageLen0) := by
  dsimp only [chre_slpi_get_message_to_host]
  split
  · right; exact ⟨rfl, rfl, rfl⟩
  · split
    · right; exact ⟨rfl, rfl, rfl⟩
    · left
      refine ⟨rfl, ?_, rfl, rfl⟩
      omega

/-- C5: a pump call that dequeues the sentinel (null message) returns the
distinct `CHRE_FASTRPC_ERROR_SHUTTING_DOWN` status, leaves the host buffer
and the `*messageLen` output untouched, and performs no completion callback;
the shutting-down status is not the generic error status. -/
theorem pump_sentinel_shutting_down
    (toBytes : MessageContainer → List Nat) (bufferLen : Int)
    (buffer0 : List Nat) (messageLen0 : Nat) :
    (chre_slpi_get_message_to_host toBytes none bufferLen buffer0 messageLen0
      = { result := FastRPCResult.SHUTTING_DOWN, buffer := buffer0,
          messageLen := messageLen0, completions := 0 })
    ∧ ((FastRPCResult.SHUTTING_DOWN == FastRPCResult.ERROR) = false) := by
  exact ⟨rfl, rfl⟩

/-- C6: `HostLinkBase::shutdown` is bounded for every queue/host behavior:
the sentinel push is attempted at most 5 times with at most 4 sleeps of
`kPollingIntervalUsec` (5 ms) between attempts, the drain check polls
emptiness at most 5 times with at most 4 sleeps, each stage waits at most
`5 * kPollingIntervalUsec`, and when the queue stays full throughout the call
still completes after exactly 5 failed attempts, merely logging the
failure. -/
theorem shutdown_bounded (push emptyQ : Nat → Bool) :
    (shutdown push emptyQ).pushAttempts ≤ 5
    ∧ (shutdown push emptyQ).enqueueSleeps ≤ 4
    ∧ (shutdown push emptyQ).drainPolls ≤ 5
    ∧ (shutdown push emptyQ).drainSleeps ≤ 4
    ∧ (shutdown push emptyQ).enqueueSleeps * kPollingIntervalUsec
        ≤ 5 * kPollingIntervalUsec
    ∧ (shutdown push emptyQ).drainSleeps * kPollingIntervalUsec
        ≤ 5 * kPollingIntervalUsec
    ∧ shutdown (fun _ => false) emptyQ
        = { pushAttempts := 5, enqueueSleeps := 4, sentinelEnqueued := false,
            enqueueFailLogged := true, drainPolls := 0, drainSleeps := 0,
            drainTimeoutLogged := false } := by
  obtain ⟨hp1, hp2⟩ := boundedRetry_bounds push
  obtain ⟨he1, he2⟩ := boundedRetry_bounds emptyQ
  refine ⟨?_, ?_, ?_, ?_, ?_, ?_, rfl⟩ <;>
    by_cases h : (boundedRetry push 0 5).1 = 0 <;>
      simp [shutdown, h, kPollingIntervalUsec] <;> omega

/-- C7: a dispatcher call on a buffer that verifies and whose container
carries an unsupported discriminant makes no routing call, logs the warning,
and still returns the success status — for every tag and length. -/
theorem deliver_unsupported_discriminant_success (messageLen : Int) (tag : Nat) :
    chre_slpi_deliver_message_from_host
        (some { verifies := true,
                root := some { msg := ChreMessage.Other tag } }) messageLen
      = { result := FastRPCResult.SUCCESS, verifierInvoked := true,
          discriminantRead := true, errLogged := false, warnLogged := true,
          dropLogged := false, routed := none } := by
  exact rfl

/-- C8: `encodeNanoappMessage` omits the payload field entirely when the
payload is empty (the container carries `none`, not an empty vector), and the
inbound side treats the absent field as a zero-length payload: the decoded
message routes with a null payload pointer whose `payloadSize` is 0, so the
empty-payload round trip yields payload length 0. -/
theorem encode_empty_payload_roundtrip (appId msgType ep : Nat) :
    encodeNanoappMessage
        { appId := appId, message := [],
          toHostData := { messageType := msgType, hostEndpoint := ep } }
      = { msg := ChreMessage.NanoappMessage (some
            { app_id := appId, message_type := msgType, host_endpoint := ep,
              message := none }) }
    ∧ (handleNanoappMessageFromHost (some
          { app_id := appId, message_type := msgType, host_endpoint := ep,
            message := none })).routed
      = some { appId := appId, hostEndpoint := ep, messageType := msgType,
               payload := none }
    ∧ RouteCall.payloadLen
        { appId := appId, hostEndpoint := ep, messageType := msgType,
          payload := none } = 0 := by
  exact ⟨rfl, rfl, rfl⟩

/-- C9: a dispatcher call on a verified container carrying a non-null
`NanoappMessage` routes exactly the decoded `app_id`, `host_endpoint`,
`message_type` and payload field through `sendMessageToNanoappFromHost`, and
returns success; an absent payload field is forwarded as the (null pointer,
length 0) pair, whose `payloadSize` argument is 0. -/
theorem deliver_nanoapp_routed_verbatim (messageLen : Int) (m : NanoappMessage) :
    (chre_slpi_deliver_message_from_host
        (some { verifies := true,
                root := some { msg := ChreMessage.NanoappMessage (some m) } })
        messageLen
      = { result := FastRPCResult.SUCCESS, verifierInvoked := true,
          discriminantRead := true, errLogged := false, warnLogged := false,
          dropLogged := false,
          routed := some { appId := m.app_id, hostEndpoint := m.host_endpoint,
                           messageType := m.message_type,
                           payload := m.message } })
    ∧ RouteCall.payloadLen
        { appId := m.app_id, hostEndpoint := m.host_endpoint,
          messageType := m.message_type, payload := none } = 0 := by
  obtain ⟨a, t, e, pay⟩ := m
  refine ⟨?_, rfl⟩
  cases pay <;> rfl

/-- C10: a dispatcher call on a verified container whose discriminant is
`NanoappMessage` but whose union value is null logs the drop, makes no
routing call, and returns the success status — for every length. -/
theorem deliver_null_nanoapp_dropped (messageLen : Int) :
    chre_slpi_deliver_message_from_host
        (some { verifies := true,
                root := some { msg := ChreMessage.NanoappMessage none } })
        messageLen
      = { result := FastRPCResult.SUCCESS, verifierInvoked := true,
          discriminantRead := true, errLogged := false, warnLogged := false,
          dropLogged := true, routed := none } := by
  exact rfl

end chre
